import Mathlib

/- Formal model of `postgresql_watcher/watcher.py`: a casbin policy-update
watcher built on PostgreSQL LISTEN/NOTIFY.  The facade (`PostgresqlWatcher`)
owns a `multiprocessing.Pipe` pair and a background subscriber `Process`; the
subscriber forwards NOTIFY payloads through the pipe, and the facade polls the
read end with `should_reload`.

The embedding is a `World` state holding the facade's attributes exactly as
the Python object stores them, together with a ledger of every pipe and every
process ever created (indexed by creation order, so the facade's handle
attributes are indices into those ledgers), plus a trace of observable side
effects.  Pipe semantics follow POSIX/multiprocessing: the read end reports
end-of-stream only when the buffer is empty and every copy of the write end
(the facade's own `child_conn` handle and the worker's inherited handle) is
closed. -/

set_option autoImplicit false

/-- Observable side effects of the facade's methods, in program order. -/
inductive Effect where
  | logDebug (msg : String) : Effect
  | logWarning (msg : String) : Effect
  | connectDb : Effect
  | setAutocommit : Effect
  | execSql (sql : String) : Effect
  | closeDb : Effect
  | terminateProcess (pid : Nat) : Effect
  | invokeCallback (cb : Nat) : Effect
deriving DecidableEq

/-- Is this effect a `Process.terminate()` call? -/
def Effect.isTerminate : Effect → Bool
  | Effect.terminateProcess _ => true
  | _ => false

/-- Is this effect an invocation of the stored update callback? -/
def Effect.isCallbackInvoke : Effect → Bool
  | Effect.invokeCallback _ => true
  | _ => false

/-- Is this effect a `cursor.execute(...)` call? -/
def Effect.isExecSql : Effect → Bool
  | Effect.execSql _ => true
  | _ => false

/-- One `multiprocessing.Pipe()` pair.  `buffer` holds payloads written but not
yet read.  The three flags track the open handles to the pair: the facade's
read-end handle (`parent_conn`), the facade's own copy of the write end
(`child_conn`), and the worker process's inherited copy of the write end. -/
structure PipeRec where
  buffer : List String
  parentOpen : Bool
  childFacadeOpen : Bool
  childWorkerOpen : Bool
deriving DecidableEq

/-- The read end of a pipe is at end-of-stream (so `recv()` raises `EOFError`)
exactly when the buffer is drained and no copy of the write end remains open. -/
def PipeRec.atEOF (p : PipeRec) : Bool :=
  p.buffer.isEmpty && !p.childFacadeOpen && !p.childWorkerOpen

/-- One `multiprocessing.Process` created by `_create_subscription_process`.
`delay` is the startup delay passed to `_casbin_channel_subscription`;
`pipe` is the index of the pipe whose write end the worker holds. -/
structure ProcRec where
  daemon : Bool
  delay : Nat
  started : Bool
  alive : Bool
  terminated : Bool
  pipe : Nat
deriving DecidableEq

/-- Python exceptions that `should_reload` can let escape. -/
inductive PyError where
  | attributeErrorNonePoll : PyError
  | osErrorClosedHandle : PyError
deriving DecidableEq

/-- A `psycopg2` notification as seen by the subscriber loop. -/
structure Notify where
  payload : String
deriving DecidableEq

/-- Constructor arguments of `PostgresqlWatcher.__init__` (the connection and
TLS parameters are stored verbatim and passed through to `connect`). -/
structure Config where
  host : String
  user : String
  password : String
  port : Nat
  dbname : String
  channel_name : Option String
  sslmode : Option String
  sslrootcert : Option String
  sslcert : Option String
  sslkey : Option String
deriving DecidableEq

/-- `POSTGRESQL_CHANNEL_NAME` (watcher.py line 10). -/
def POSTGRESQL_CHANNEL_NAME : String := "casbin_role_watcher"

/-- `CASBIN_CHANNEL_SELECT_TIMEOUT` (watcher.py line 11), in seconds. -/
def CASBIN_CHANNEL_SELECT_TIMEOUT : Nat := 1

/-- The whole observable state: the facade's attributes as the Python object
stores them (`parent_conn`, `child_conn`, `subscription_process` and
`subscribed_process` are indices into the ledgers, `none` standing for
Python `None`), the ledgers of all pipes and worker processes ever created,
and the trace of effects performed so far. -/
structure World where
  host : String
  port : Nat
  user : String
  password : String
  dbname : String
  channel_name : String
  sslmode : Option String
  sslrootcert : Option String
  sslcert : Option String
  sslkey : Option String
  update_callback : Option Nat
  parent_conn : Option Nat
  child_conn : Option Nat
  subscription_process : Option Nat
  subscribed_process : Option Nat
  pipes : List PipeRec
  procs : List ProcRec
  trace : List Effect
deriving DecidableEq

/-- Replace the element at index `i` of `l` by its image under `f` (no-op when
`i` is out of range).  Used for in-place mutation of ledger entries. -/
def setAt {α : Type} (l : List α) (i : Nat) (f : α → α) : List α :=
  match l, i with
  | [], _ => []
  | x :: xs, 0 => f x :: xs
  | x :: xs, Nat.succ n => x :: setAt xs n f

namespace PostgresqlWatcher

/-- Lines 104-106 of `_cleanup_connections_and_processes`: if `parent_conn` is
not `None`, close it and set the attribute to `None`. -/
def close_parent_conn (w : World) : World :=
  match w.parent_conn with
  | some i =>
    { w with pipes := setAt w.pipes i (fun p => { p with parentOpen := false }),
             parent_conn := none }
  | none => w

/-- Lines 107-109 of `_cleanup_connections_and_processes`: if `child_conn` is
not `None`, close the facade's copy of the write end and set it to `None`. -/
def close_child_conn (w : World) : World :=
  match w.child_conn with
  | some i =>
    { w with pipes := setAt w.pipes i (fun p => { p with childFacadeOpen := false }),
             child_conn := none }
  | none => w

/-- Lines 110-112 of `_cleanup_connections_and_processes`: if
`subscription_process` is not `None`, terminate it (which also closes the dead
worker's copy of the write end) and set the attribute to `None`. -/
def terminate_subscription_process (w : World) : World :=
  match w.subscription_process with
  | some j =>
    { w with procs := setAt w.procs j (fun pr => { pr with terminated := true, alive := false }),
             pipes :=
               match w.procs[j]? with
               | some pr => setAt w.pipes pr.pipe (fun p => { p with childWorkerOpen := false })
               | none => w.pipes,
             trace := w.trace ++ [Effect.terminateProcess j],
             subscription_process := none }
  | none => w

/-- `_cleanup_connections_and_processes` (watcher.py lines 102-112): the three
guarded cleanup blocks, in source order. -/
def _cleanup_connections_and_processes (w : World) : World :=
  terminate_subscription_process (close_child_conn (close_parent_conn w))

/-- `_create_subscription_process` (watcher.py lines 72-100): clean up, create
a fresh `Pipe()` pair (both of the facade's handles open, worker's copy not
yet inherited), create a `Process` with `daemon=True` targeting
`_casbin_channel_subscription` with the given startup delay — note the new
handle is assigned to the attribute `subscribed_process`, not
`subscription_process` — and start it iff `start_listening`. -/
def _create_subscription_process (w : World) (start_listening : Bool) (delay : Nat) : World :=
  let w1 := _cleanup_connections_and_processes w
  let n := w1.pipes.length
  let w2 := { w1 with
    pipes := w1.pipes ++ [({ buffer := [], parentOpen := true,
                             childFacadeOpen := true, childWorkerOpen := false } : PipeRec)],
    parent_conn := some n,
    child_conn := some n }
  let m := w2.procs.length
  let w3 := { w2 with
    procs := w2.procs ++ [({ daemon := true, delay := delay, started := false,
                             alive := false, terminated := false, pipe := n } : ProcRec)],
    subscribed_process := some m }
  if start_listening then
    { w3 with
      procs := setAt w3.procs m (fun pr => { pr with started := true, alive := true }),
      pipes := setAt w3.pipes n (fun p => { p with childWorkerOpen := true }) }
  else
    w3

/-- `__init__` (watcher.py lines 16-67): store the configuration (defaulting
the channel name to `POSTGRESQL_CHANNEL_NAME`), null out the handle
attributes, call `_create_subscription_process(start_listening)` with the
default delay 2, and finally reset `update_callback` to `None`. -/
def init (cfg : Config) (start_listening : Bool) : World :=
  let w0 : World := {
    host := cfg.host,
    port := cfg.port,
    user := cfg.user,
    password := cfg.password,
    dbname := cfg.dbname,
    channel_name :=
      match cfg.channel_name with
      | some c => c
      | none => POSTGRESQL_CHANNEL_NAME,
    sslmode := cfg.sslmode,
    sslrootcert := cfg.sslrootcert,
    sslcert := cfg.sslcert,
    sslkey := cfg.sslkey,
    update_callback := none,
    parent_conn := none,
    child_conn := none,
    subscription_process := none,
    subscribed_process := none,
    pipes := [],
    procs := [],
    trace := [] }
  let w1 := _create_subscription_process w0 start_listening 2
  { w1 with update_callback := none }

/-- `set_update_callback` (watcher.py lines 114-119): store the handler. -/
def set_update_callback (w : World) (update_handler : Nat) : World :=
  { w with update_callback := some update_handler }

/-- The SQL text `update` executes (watcher.py lines 140-142), with `t` the
rendering of `time.time()`. -/
def notifySql (channel_name : String) (t : String) : String :=
  "NOTIFY " ++ channel_name ++ ",\x27casbin policy update at " ++ t ++ "\x27"

/-- `update` (watcher.py lines 121-143): open a fresh connection, set
autocommit isolation, execute one NOTIFY on the configured channel with the
timestamped payload, close the connection.  No facade attribute changes. -/
def update (w : World) (t : String) : World :=
  { w with trace := w.trace ++
      [Effect.connectDb, Effect.setAutocommit,
       Effect.execSql (notifySql w.channel_name t), Effect.closeDb] }

/-- The warning `should_reload` logs when the subscriber is lost (watcher.py
lines 152-155, two adjacent string literals). -/
def subscriberLostWarning : String :=
  "Child casbin-watcher subscribe process has stopped, attempting to recreate the process in 10 seconds..."

/-- `should_reload` (watcher.py lines 145-158).  `parent_conn.poll()` is true
when a payload is buffered or the pipe is at end-of-stream; `recv()` then
returns the first buffered payload, or raises `EOFError` at end-of-stream, in
which case the handler logs a warning and recreates the subscription process
with `delay=10` (and `start_listening` defaulting to `True`), returning
`False`.  Polling through a `None` attribute or a closed handle raises an
uncaught Python error. -/
def should_reload (w : World) : Except PyError (Bool × World) :=
  match w.parent_conn with
  | none => Except.error PyError.attributeErrorNonePoll
  | some i =>
    match w.pipes[i]? with
    | none => Except.error PyError.osErrorClosedHandle
    | some p =>
      if p.parentOpen = false then
        Except.error PyError.osErrorClosedHandle
      else
        match p.buffer with
        | m :: rest =>
          Except.ok (true,
            { w with pipes := setAt w.pipes i (fun _ => { p with buffer := rest }),
                     trace := w.trace ++ [Effect.logDebug ("message:" ++ m)] })
        | [] =>
          if !p.childFacadeOpen && !p.childWorkerOpen then
            let wWarned := { w with trace := w.trace ++ [Effect.logWarning subscriberLostWarning] }
            Except.ok (false, _create_subscription_process wWarned true 10)
          else
            Except.ok (false, w)

/-- `n` successive `should_reload` calls with no intervening publish, checking
that every one of them returns `False` without raising. -/
def reloadFalseTimes (w : World) : Nat → Bool
  | 0 => true
  | Nat.succ n =>
    match should_reload w with
    | Except.ok (false, w2) => reloadFalseTimes w2 n
    | _ => false

end PostgresqlWatcher

/-- The drain loop of `_casbin_channel_subscription` (watcher.py lines
197-201): after `conn.poll()`, `while conn.notifies:` pops the notification at
index 0 and sends its payload through the worker's pipe endpoint.  The state
is the connection's notification buffer paired with the payloads already sent
on the pipe, oldest first; the result is that state when the loop exits. -/
def _casbin_drain_notifies : List Notify → List String → List Notify × List String
  | [], sent => ([], sent)
  | n :: rest, sent => _casbin_drain_notifies rest (sent ++ [n.payload])

/-- External steps interleaved with facade method calls: a worker process
dying (its write-end handle closes with it), or a live worker forwarding one
notification payload into its pipe. -/
inductive Op where
  | setCallback (cb : Nat) : Op
  | doUpdate (t : String) : Op
  | doShouldReload : Op
  | doCleanup : Op
  | doRecreate (start_listening : Bool) (delay : Nat) : Op
  | envWorkerDies (j : Nat) : Op
  | envForward (j : Nat) (msg : String) : Op

/-- A worker process dies: it stops being alive and the operating system
closes its inherited copy of the pipe's write end. -/
def workerDies (w : World) (j : Nat) : World :=
  match w.procs[j]? with
  | some pr =>
    if pr.alive then
      { w with procs := setAt w.procs j (fun q => { q with alive := false }),
               pipes := setAt w.pipes pr.pipe (fun p => { p with childWorkerOpen := false }) }
    else w
  | none => w

/-- A live worker forwards one drained payload through its pipe's write end
(`process_conn.send(notify.payload)`). -/
def workerForwards (w : World) (j : Nat) (msg : String) : World :=
  match w.procs[j]? with
  | some pr =>
    if pr.alive then
      { w with pipes := setAt w.pipes pr.pipe (fun p => { p with buffer := p.buffer ++ [msg] }) }
    else w
  | none => w

/-- One step of the facade's life: a method call (an uncaught exception leaves
the object unchanged) or an environment event. -/
def step (w : World) : Op → World
  | Op.setCallback cb => PostgresqlWatcher.set_update_callback w cb
  | Op.doUpdate t => PostgresqlWatcher.update w t
  | Op.doShouldReload =>
    match PostgresqlWatcher.should_reload w with
    | Except.ok (_, w2) => w2
    | Except.error _ => w
  | Op.doCleanup => PostgresqlWatcher._cleanup_connections_and_processes w
  | Op.doRecreate s d => PostgresqlWatcher._create_subscription_process w s d
  | Op.envWorkerDies j => workerDies w j
  | Op.envForward j m => workerForwards w j m

/-- Run a sequence of steps from a starting world. -/
def run (w : World) (ops : List Op) : World :=
  ops.foldl step w

/-- The pipe the facade's handles point at exists and both of the facade's own
handles to it are open. -/
def PipeOkAt (w : World) (i : Nat) : Prop :=
  ∃ p : PipeRec, w.pipes[i]? = some p ∧ p.parentOpen = true ∧ p.childFacadeOpen = true

/-- The reachable-state invariant: `subscription_process` is never reassigned
after `__init__` nulls it, so no terminate effect is ever emitted and no
ledger process is ever terminated; the two pipe-handle attributes always point
at the same pipe; and while they are non-`None` that pipe exists with both
facade handles open. -/
def WatcherInv (w : World) : Prop :=
  w.subscription_process = none ∧
  w.trace.all (fun e => !e.isTerminate) = true ∧
  w.trace.all (fun e => !e.isCallbackInvoke) = true ∧
  w.procs.all (fun pr => pr.daemon && !pr.terminated) = true ∧
  w.parent_conn = w.child_conn ∧
  (∀ i : Nat, w.parent_conn = some i → PipeOkAt w i)

/-- A concrete configuration (the one the repository's test suite uses). -/
def exampleConfig : Config :=
  { host := "127.0.0.1", user := "postgres", password := "123456",
    port := 5432, dbname := "postgres", channel_name := none,
    sslmode := none, sslrootcert := none, sslcert := none, sslkey := none }

/-- A facade state whose read endpoint is at end-of-stream: the pipe's buffer
is drained and every copy of the write end is closed. -/
def eofWorld : World :=
  { host := "127.0.0.1", port := 5432, user := "postgres", password := "123456",
    dbname := "postgres", channel_name := "casbin_role_watcher",
    sslmode := none, sslrootcert := none, sslcert := none, sslkey := none,
    update_callback := none, parent_conn := some 0, child_conn := none,
    subscription_process := none, subscribed_process := some 0,
    pipes := [{ buffer := [], parentOpen := true, childFacadeOpen := false,
                childWorkerOpen := false }],
    procs := [{ daemon := true, delay := 2, started := true, alive := false,
                terminated := false, pipe := 0 }],
    trace := [] }

/-- A freshly constructed watcher whose worker has forwarded one payload. -/
def worldWithOneMessage : World :=
  run (PostgresqlWatcher.init exampleConfig true) [Op.envForward 0 "m1"]

/-- The pipe record of `worldWithOneMessage`. -/
def pipeWithOneMessage : PipeRec :=
  { buffer := ["m1"], parentOpen := true, childFacadeOpen := true, childWorkerOpen := true }

theorem length_setAt {α : Type} (l : List α) (i : Nat) (f : α → α) :
    (setAt l i f).length = l.length := by
  induction l generalizing i with
  | nil => rfl
  | cons x xs ih =>
    cases i with
    | zero => simp [setAt]
    | succ n => simp [setAt, ih]

theorem getElem?_setAt_self {α : Type} (l : List α) (i : Nat) (f : α → α) :
    (setAt l i f)[i]? = (l[i]?).map f := by
  induction l generalizing i with
  | nil => simp [setAt]
  | cons x xs ih =>
    cases i with
    | zero => simp [setAt]
    | succ n => simpa [setAt] using ih n

theorem getElem?_setAt_ne {α : Type} (l : List α) (i j : Nat) (f : α → α) (h : ¬ i = j) :
    (setAt l i f)[j]? = l[j]? := by
  induction l generalizing i j with
  | nil => simp [setAt]
  | cons x xs ih =>
    cases i with
    | zero =>
      cases j with
      | zero => exact absurd rfl h
      | succ k => simp [setAt]
    | succ n =>
      cases j with
      | zero => simp [setAt]
      | succ k => simpa [setAt] using ih n k (fun hc => h (by rw [hc]))

theorem all_setAt {α : Type} (p : α → Bool) (l : List α) (i : Nat) (f : α → α)
    (hl : l.all p = true) (hf : ∀ a : α, p a = true → p (f a) = true) :
    (setAt l i f).all p = true := by
  induction l generalizing i with
  | nil => simp [setAt]
  | cons x xs ih =>
    simp only [List.all_cons, Bool.and_eq_true] at hl
    cases i with
    | zero => simp [setAt, List.all_cons, hf x hl.1, hl.2]
    | succ n => simp [setAt, List.all_cons, hl.1, ih n hl.2]

theorem getElem?_append_left_of_lt {α : Type} (l r : List α) (i : Nat) (h : i < l.length) :
    (l ++ r)[i]? = l[i]? := by
  induction l generalizing i with
  | nil => simp at h
  | cons x xs ih =>
    cases i with
    | zero => simp
    | succ n => simpa using ih n (Nat.lt_of_succ_lt_succ h)

theorem getElem?_concat_length {α : Type} (l : List α) (x : α) :
    (l ++ [x])[l.length]? = some x := by
  induction l with
  | nil => rfl
  | cons y ys ih => simp [ih]

theorem take_length_append {α : Type} (l r : List α) : (l ++ r).take l.length = l := by
  induction l with
  | nil => rfl
  | cons x xs ih => simp [ih]

theorem drop_length_append {α : Type} (l r : List α) : (l ++ r).drop l.length = r := by
  induction l with
  | nil => rfl
  | cons x xs ih => simp [ih]

namespace PostgresqlWatcher

theorem close_parent_conn_spec (w : World) :
    (close_parent_conn w).parent_conn = none ∧
    (close_parent_conn w).child_conn = w.child_conn ∧
    (close_parent_conn w).subscription_process = w.subscription_process ∧
    (close_parent_conn w).subscribed_process = w.subscribed_process ∧
    (close_parent_conn w).procs = w.procs ∧
    (close_parent_conn w).trace = w.trace := by
  cases hp : w.parent_conn <;> simp [close_parent_conn, hp]

theorem close_child_conn_spec (w : World) :
    (close_child_conn w).child_conn = none ∧
    (close_child_conn w).parent_conn = w.parent_conn ∧
    (close_child_conn w).subscription_process = w.subscription_process ∧
    (close_child_conn w).subscribed_process = w.subscribed_process ∧
    (close_child_conn w).procs = w.procs ∧
    (close_child_conn w).trace = w.trace := by
  cases hc : w.child_conn <;> simp [close_child_conn, hc]

theorem terminate_of_none (w : World) (h : w.subscription_process = none) :
    terminate_subscription_process w = w := by
  simp [terminate_subscription_process, h]

/-- When `subscription_process` is `None` — which `__init__` makes true forever
— cleanup only closes the two pipe handles: the worker ledger, the trace and
the `subscribed_process` handle are untouched. -/
theorem cleanup_spec_of_none (w : World) (h : w.subscription_process = none) :
    (_cleanup_connections_and_processes w).parent_conn = none ∧
    (_cleanup_connections_and_processes w).child_conn = none ∧
    (_cleanup_connections_and_processes w).subscription_process = none ∧
    (_cleanup_connections_and_processes w).subscribed_process = w.subscribed_process ∧
    (_cleanup_connections_and_processes w).procs = w.procs ∧
    (_cleanup_connections_and_processes w).trace = w.trace := by
  obtain ⟨p1, p2, p3, p4, p5, p6⟩ := close_parent_conn_spec w
  obtain ⟨q1, q2, q3, q4, q5, q6⟩ := close_child_conn_spec (close_parent_conn w)
  have hsub : (close_child_conn (close_parent_conn w)).subscription_process = none := by
    rw [q3, p3, h]
  have ht := terminate_of_none _ hsub
  unfold _cleanup_connections_and_processes
  rw [ht]
  exact ⟨by rw [q2, p1], q1, hsub, by rw [q4, p4], by rw [q5, p5], by rw [q6, p6]⟩

/-- Cleanup never erases trace entries. -/
theorem cleanup_trace_mem (w : World) (e : Effect) (he : e ∈ w.trace) :
    e ∈ (_cleanup_connections_and_processes w).trace := by
  obtain ⟨-, -, -, -, -, p6⟩ := close_parent_conn_spec w
  obtain ⟨-, -, -, -, -, q6⟩ := close_child_conn_spec (close_parent_conn w)
  unfold _cleanup_connections_and_processes
  cases hs : (close_child_conn (close_parent_conn w)).subscription_process with
  | none => rw [terminate_of_none _ hs, q6, p6]; exact he
  | some j =>
    simp only [terminate_subscription_process, hs]
    rw [q6, p6]
    exact List.mem_append_left _ he

/-- What `_create_subscription_process` builds, for any starting state: both
pipe-handle attributes point at a brand-new pipe whose facade handles are
open, `subscribed_process` points at a brand-new daemon process carrying the
requested delay and started iff requested, and neither `subscription_process`
nor the trace changes beyond what cleanup did. -/
theorem create_spec (w : World) (s : Bool) (d : Nat) :
    ∃ n m : Nat,
      (_create_subscription_process w s d).parent_conn = some n ∧
      (_create_subscription_process w s d).child_conn = some n ∧
      (_create_subscription_process w s d).pipes[n]? =
        some { buffer := [], parentOpen := true, childFacadeOpen := true, childWorkerOpen := s } ∧
      (_create_subscription_process w s d).subscribed_process = some m ∧
      (_create_subscription_process w s d).procs[m]? =
        some { daemon := true, delay := d, started := s, alive := s, terminated := false, pipe := n } ∧
      (_create_subscription_process w s d).subscription_process =
        (_cleanup_connections_and_processes w).subscription_process ∧
      (_create_subscription_process w s d).trace =
        (_cleanup_connections_and_processes w).trace := by
  refine ⟨(_cleanup_connections_and_processes w).pipes.length,
          (_cleanup_connections_and_processes w).procs.length, ?_⟩
  cases s <;>
    simp [_create_subscription_process, getElem?_setAt_self, getElem?_concat_length]

/-- The worker ledger stays all-daemon/never-terminated across recreation. -/
theorem create_procs_all (w : World) (s : Bool) (d : Nat)
    (h : (_cleanup_connections_and_processes w).procs.all
          (fun pr => pr.daemon && !pr.terminated) = true) :
    (_create_subscription_process w s d).procs.all
      (fun pr => pr.daemon && !pr.terminated) = true := by
  have hstep : ∀ a : ProcRec, (a.daemon && !a.terminated) = true →
      (({ a with started := true, alive := true } : ProcRec).daemon &&
       !({ a with started := true, alive := true } : ProcRec).terminated) = true := by
    intro a ha
    simpa using ha
  cases s with
  | false => simp [_create_subscription_process, List.all_append, h]
  | true =>
    simp only [_create_subscription_process, if_true]
    refine all_setAt _ _ _ _ ?_ hstep
    simp [List.all_append, h]

end PostgresqlWatcher

namespace PostgresqlWatcher

theorem inv_create (w : World) (s : Bool) (d : Nat)
    (h0 : w.subscription_process = none)
    (h1 : w.trace.all (fun e => !e.isTerminate) = true)
    (h2 : w.trace.all (fun e => !e.isCallbackInvoke) = true)
    (h3 : w.procs.all (fun pr => pr.daemon && !pr.terminated) = true) :
    WatcherInv (_create_subscription_process w s d) := by
  obtain ⟨c1, c2, c3, c4, c5, c6⟩ := cleanup_spec_of_none w h0
  obtain ⟨n, m, e1, e2, e3, e4, e5, e6, e7⟩ := create_spec w s d
  refine ⟨?_, ?_, ?_, ?_, ?_, ?_⟩
  · rw [e6, c3]
  · rw [e7, c6]; exact h1
  · rw [e7, c6]; exact h2
  · refine create_procs_all w s d ?_
    rw [c5]; exact h3
  · rw [e1, e2]
  · intro i hi
    rw [e1] at hi
    obtain rfl : n = i := Option.some.inj hi
    exact ⟨_, e3, rfl, rfl⟩

theorem inv_update_callback_irrel (w : World) (x : Option Nat) (h : WatcherInv w) :
    WatcherInv { w with update_callback := x } := h

theorem inv_init (cfg : Config) (s : Bool) : WatcherInv (init cfg s) := by
  unfold init
  exact inv_update_callback_irrel _ _ (inv_create _ s 2 rfl rfl rfl rfl)

theorem inv_set_update_callback (w : World) (cb : Nat) (h : WatcherInv w) :
    WatcherInv (set_update_callback w cb) := h

theorem inv_update (w : World) (t : String) (h : WatcherInv w) :
    WatcherInv (update w t) := by
  obtain ⟨h0, h1, h2, h3, h4, h5⟩ := h
  refine ⟨h0, ?_, ?_, h3, h4, h5⟩
  · show (w.trace ++ [Effect.connectDb, Effect.setAutocommit,
      Effect.execSql (notifySql w.channel_name t), Effect.closeDb]).all
        (fun e => !e.isTerminate) = true
    rw [List.all_append, h1]
    rfl
  · show (w.trace ++ [Effect.connectDb, Effect.setAutocommit,
      Effect.execSql (notifySql w.channel_name t), Effect.closeDb]).all
        (fun e => !e.isCallbackInvoke) = true
    rw [List.all_append, h2]
    rfl

theorem inv_cleanup (w : World) (h : WatcherInv w) :
    WatcherInv (_cleanup_connections_and_processes w) := by
  obtain ⟨h0, h1, h2, h3, h4, h5⟩ := h
  obtain ⟨c1, c2, c3, c4, c5, c6⟩ := cleanup_spec_of_none w h0
  refine ⟨c3, ?_, ?_, ?_, ?_, ?_⟩
  · rw [c6]; exact h1
  · rw [c6]; exact h2
  · rw [c5]; exact h3
  · rw [c1, c2]
  · intro i hi
    rw [c1] at hi
    exact Option.noConfusion hi

theorem inv_workerDies (w : World) (j : Nat) (h : WatcherInv w) :
    WatcherInv (workerDies w j) := by
  obtain ⟨h0, h1, h2, h3, h4, h5⟩ := h
  unfold workerDies
  cases hj : w.procs[j]? with
  | none => exact ⟨h0, h1, h2, h3, h4, h5⟩
  | some pr =>
    by_cases ha : pr.alive = true
    · simp only [ha, if_true]
      refine ⟨h0, h1, h2, ?_, h4, ?_⟩
      · refine all_setAt _ _ _ _ h3 ?_
        intro a hh
        simpa using hh
      · intro i hi
        obtain ⟨p, hp, po, pc⟩ := h5 i hi
        by_cases he : pr.pipe = i
        · subst he
          refine ⟨{ p with childWorkerOpen := false }, ?_, po, pc⟩
          rw [getElem?_setAt_self, hp]
          rfl
        · refine ⟨p, ?_, po, pc⟩
          rw [getElem?_setAt_ne _ _ _ _ he, hp]
    · simp only [ha, if_false]
      exact ⟨h0, h1, h2, h3, h4, h5⟩

theorem inv_workerForwards (w : World) (j : Nat) (msg : String) (h : WatcherInv w) :
    WatcherInv (workerForwards w j msg) := by
  obtain ⟨h0, h1, h2, h3, h4, h5⟩ := h
  unfold workerForwards
  cases hj : w.procs[j]? with
  | none => exact ⟨h0, h1, h2, h3, h4, h5⟩
  | some pr =>
    by_cases ha : pr.alive = true
    · simp only [ha, if_true]
      refine ⟨h0, h1, h2, h3, h4, ?_⟩
      intro i hi
      obtain ⟨p, hp, po, pc⟩ := h5 i hi
      by_cases he : pr.pipe = i
      · subst he
        refine ⟨{ p with buffer := p.buffer ++ [msg] }, ?_, po, pc⟩
        rw [getElem?_setAt_self, hp]
        rfl
      · refine ⟨p, ?_, po, pc⟩
        rw [getElem?_setAt_ne _ _ _ _ he, hp]
    · simp only [ha, if_false]
      exact ⟨h0, h1, h2, h3, h4, h5⟩

/-- The pending-message branch of `should_reload`: a buffered payload is
received (exactly one), logged, and `True` is returned. -/
theorem should_reload_pending (w : World) (i : Nat) (p : PipeRec) (m : String)
    (rest : List String) (hp : w.parent_conn = some i) (hpi : w.pipes[i]? = some p)
    (po : p.parentOpen = true) (hb : p.buffer = m :: rest) :
    should_reload w = Except.ok (true,
      { w with pipes := setAt w.pipes i (fun _ => { p with buffer := rest }),
               trace := w.trace ++ [Effect.logDebug ("message:" ++ m)] }) := by
  obtain ⟨buf, pOpen, cf, cw⟩ := p
  replace po : pOpen = true := po
  replace hb : buf = m :: rest := hb
  subst po
  subst hb
  simp [should_reload, hp, hpi]

/-- The quiet branch of `should_reload`: nothing buffered and the facade's own
write-end copy still open, so `poll()` is `False` and nothing changes. -/
theorem should_reload_no_message (w : World) (i : Nat) (p : PipeRec)
    (hp : w.parent_conn = some i) (hpi : w.pipes[i]? = some p)
    (po : p.parentOpen = true) (hb : p.buffer = []) (pc : p.childFacadeOpen = true) :
    should_reload w = Except.ok (false, w) := by
  obtain ⟨buf, pOpen, cf, cw⟩ := p
  replace po : pOpen = true := po
  replace pc : cf = true := pc
  replace hb : buf = [] := hb
  subst po
  subst pc
  subst hb
  simp [should_reload, hp, hpi]

/-- The `EOFError` branch of `should_reload`: buffer drained and every write
end closed, so `recv()` raises, the handler logs the warning and recreates the
subscription process with the elevated delay 10, and `False` is returned. -/
theorem should_reload_eof_branch (w : World) (i : Nat) (p : PipeRec)
    (hp : w.parent_conn = some i) (hpi : w.pipes[i]? = some p)
    (po : p.parentOpen = true) (hb : p.buffer = [])
    (hcf : p.childFacadeOpen = false) (hcw : p.childWorkerOpen = false) :
    should_reload w = Except.ok (false,
      _create_subscription_process
        { w with trace := w.trace ++ [Effect.logWarning subscriberLostWarning] } true 10) := by
  obtain ⟨buf, pOpen, cf, cw⟩ := p
  replace po : pOpen = true := po
  replace hb : buf = [] := hb
  replace hcf : cf = false := hcf
  replace hcw : cw = false := hcw
  subst po
  subst hb
  subst hcf
  subst hcw
  simp [should_reload, hp, hpi]

theorem inv_should_reload (w : World) (h : WatcherInv w) (b : Bool) (w2 : World)
    (hr : should_reload w = Except.ok (b, w2)) : WatcherInv w2 := by
  obtain ⟨h0, h1, h2, h3, h4, h5⟩ := h
  cases hp : w.parent_conn with
  | none => simp [should_reload, hp] at hr
  | some i =>
    obtain ⟨p, hpi, po, pc⟩ := h5 i hp
    cases hb : p.buffer with
    | nil =>
      rw [should_reload_no_message w i p hp hpi po hb pc] at hr
      simp only [Except.ok.injEq, Prod.mk.injEq] at hr
      obtain ⟨hbv, hwv⟩ := hr
      subst hwv
      exact ⟨h0, h1, h2, h3, h4, h5⟩
    | cons m rest =>
      rw [should_reload_pending w i p m rest hp hpi po hb] at hr
      simp only [Except.ok.injEq, Prod.mk.injEq] at hr
      obtain ⟨hbv, hwv⟩ := hr
      subst hwv
      refine ⟨h0, ?_, ?_, h3, h4, ?_⟩
      · show (w.trace ++ [Effect.logDebug ("message:" ++ m)]).all
          (fun e => !e.isTerminate) = true
        rw [List.all_append, h1]
        rfl
      · show (w.trace ++ [Effect.logDebug ("message:" ++ m)]).all
          (fun e => !e.isCallbackInvoke) = true
        rw [List.all_append, h2]
        rfl
      · intro i2 hi2
        replace hi2 : w.parent_conn = some i2 := hi2
        rw [hp] at hi2
        obtain rfl : i = i2 := Option.some.inj hi2
        refine ⟨{ p with buffer := rest }, ?_, po, pc⟩
        show (setAt w.pipes i (fun _ => { p with buffer := rest }))[i]? = _
        rw [getElem?_setAt_self, hpi]
        rfl

theorem inv_step (w : World) (op : Op) (h : WatcherInv w) : WatcherInv (step w op) := by
  cases op with
  | setCallback cb => exact inv_set_update_callback w cb h
  | doUpdate t => exact inv_update w t h
  | doShouldReload =>
    cases hr : should_reload w with
    | ok pair =>
      obtain ⟨b, w2⟩ := pair
      simp only [step, hr]
      exact inv_should_reload w h b w2 hr
    | error e =>
      simp only [step, hr]
      exact h
  | doCleanup => exact inv_cleanup w h
  | doRecreate s d =>
    obtain ⟨h0, h1, h2, h3, h4, h5⟩ := h
    exact inv_create w s d h0 h1 h2 h3
  | envWorkerDies j => exact inv_workerDies w j h
  | envForward j msg => exact inv_workerForwards w j msg h

theorem inv_run (w : World) (ops : List Op) (h : WatcherInv w) : WatcherInv (run w ops) := by
  induction ops generalizing w with
  | nil => exact h
  | cons op rest ih => exact ih (step w op) (inv_step w op h)

end PostgresqlWatcher

theorem drain_general (l : List Notify) (acc : List String) :
    _casbin_drain_notifies l acc = ([], acc ++ l.map Notify.payload) := by
  induction l generalizing acc with
  | nil => simp [_casbin_drain_notifies]
  | cons n rest ih => simp [_casbin_drain_notifies, ih]

/-- C1: on a facade whose read endpoint is at end-of-stream (the worker is
gone), `should_reload` does not raise: it returns `Except.ok`, logs the
warning, recreates the subscriber worker (a started daemon process with the
elevated startup delay 10) and a fresh IPC pair with both facade handles
open, and returns `false` for that call. -/
theorem C1_should_reload_eof_self_heals (w : World) (i : Nat) (p : PipeRec)
    (hp : w.parent_conn = some i) (hpi : w.pipes[i]? = some p)
    (po : p.parentOpen = true) (hb : p.buffer = [])
    (hcf : p.childFacadeOpen = false) (hcw : p.childWorkerOpen = false) :
    ∃ w2 : World,
      PostgresqlWatcher.should_reload w = Except.ok (false, w2) ∧
      Effect.logWarning PostgresqlWatcher.subscriberLostWarning ∈ w2.trace ∧
      (∃ k : Nat, ∃ pr : ProcRec, w2.subscribed_process = some k ∧
        w2.procs[k]? = some pr ∧ pr.delay = 10 ∧ pr.started = true ∧ pr.daemon = true) ∧
      (∃ j : Nat, ∃ q : PipeRec, w2.parent_conn = some j ∧ w2.child_conn = some j ∧
        w2.pipes[j]? = some q ∧ q.parentOpen = true ∧ q.childFacadeOpen = true ∧
        q.buffer = []) := by
  have hbr := PostgresqlWatcher.should_reload_eof_branch w i p hp hpi po hb hcf hcw
  obtain ⟨n, m, e1, e2, e3, e4, e5, e6, e7⟩ :=
    PostgresqlWatcher.create_spec
      { w with trace := w.trace ++ [Effect.logWarning PostgresqlWatcher.subscriberLostWarning] }
      true 10
  refine ⟨_, hbr, ?_, ?_, ?_⟩
  · rw [e7]
    refine PostgresqlWatcher.cleanup_trace_mem _ _ ?_
    exact List.mem_append_right _ (by simp)
  · exact ⟨m, _, e4, e5, rfl, rfl, rfl⟩
  · exact ⟨n, _, e1, e2, e3, rfl, rfl, rfl⟩

/-- C1 witness: the recovery at a concrete end-of-stream facade state. -/
theorem C1_witness :
    eofWorld.parent_conn = some 0 ∧
    eofWorld.pipes[0]? =
      some { buffer := [], parentOpen := true, childFacadeOpen := false,
             childWorkerOpen := false } ∧
    (∃ w2 : World,
      PostgresqlWatcher.should_reload eofWorld = Except.ok (false, w2) ∧
      Effect.logWarning PostgresqlWatcher.subscriberLostWarning ∈ w2.trace ∧
      (∃ k : Nat, ∃ pr : ProcRec, w2.subscribed_process = some k ∧
        w2.procs[k]? = some pr ∧ pr.delay = 10 ∧ pr.started = true ∧ pr.daemon = true) ∧
      (∃ j : Nat, ∃ q : PipeRec, w2.parent_conn = some j ∧ w2.child_conn = some j ∧
        w2.pipes[j]? = some q ∧ q.parentOpen = true ∧ q.childFacadeOpen = true ∧
        q.buffer = [])) :=
  ⟨rfl, rfl,
    C1_should_reload_eof_self_heals eofWorld 0
      { buffer := [], parentOpen := true, childFacadeOpen := false, childWorkerOpen := false }
      rfl rfl rfl rfl rfl rfl⟩

/-- C2: REFUTED on the code.  Recreating the worker and IPC pair via
`_create_subscription_process` does NOT terminate the previously started
worker: the `Process` handle was stored in `subscribed_process`, while the
cleanup step checks `subscription_process` (which is always `None`), so after
a recreation the first worker is still alive, was never terminated, and no
terminate call was ever issued — two workers now coexist. -/
theorem C2_recreate_leaves_previous_worker_running :
    (run (PostgresqlWatcher.init exampleConfig true) [Op.doRecreate true 2]).procs[0]? =
      some { daemon := true, delay := 2, started := true, alive := true,
             terminated := false, pipe := 0 } ∧
    (run (PostgresqlWatcher.init exampleConfig true) [Op.doRecreate true 2]).trace.all
      (fun e => !e.isTerminate) = true ∧
    (run (PostgresqlWatcher.init exampleConfig true) [Op.doRecreate true 2]).procs.length = 2 := by
  decide

/-- C3: PARTLY REFUTED on the code.  Calling
`_cleanup_connections_and_processes` twice in a row is indeed a safe no-op the
second time and closes both of the facade's pipe handles, but it does NOT
leave "no live worker": the started worker is still alive and its handle
(`subscribed_process`) is not nulled, because the terminate branch tests the
always-`None` attribute `subscription_process`. -/
theorem C3_cleanup_twice_idempotent_but_worker_survives :
    PostgresqlWatcher._cleanup_connections_and_processes
        (PostgresqlWatcher._cleanup_connections_and_processes
          (PostgresqlWatcher.init exampleConfig true)) =
      PostgresqlWatcher._cleanup_connections_and_processes
        (PostgresqlWatcher.init exampleConfig true) ∧
    (PostgresqlWatcher._cleanup_connections_and_processes
      (PostgresqlWatcher.init exampleConfig true)).parent_conn = none ∧
    (PostgresqlWatcher._cleanup_connections_and_processes
      (PostgresqlWatcher.init exampleConfig true)).child_conn = none ∧
    (PostgresqlWatcher._cleanup_connections_and_processes
      (PostgresqlWatcher.init exampleConfig true)).pipes.all
        (fun p => !p.parentOpen && !p.childFacadeOpen) = true ∧
    (PostgresqlWatcher._cleanup_connections_and_processes
      (PostgresqlWatcher.init exampleConfig true)).procs[0]? =
      some { daemon := true, delay := 2, started := true, alive := true,
             terminated := false, pipe := 0 } ∧
    (PostgresqlWatcher._cleanup_connections_and_processes
      (PostgresqlWatcher.init exampleConfig true)).subscribed_process = some 0 := by
  decide

/-- C4: `should_reload` is a non-blocking poll of the read endpoint: with at
least one message pending it consumes exactly the first one (logging it) and
returns `true`; with nothing pending (and the write end not fully closed) it
returns `false` leaving the state untouched, so arbitrarily many repeated
calls without an intervening publish all return `false`. -/
theorem C4_should_reload_poll_semantics (w : World) (i : Nat) (p : PipeRec)
    (hp : w.parent_conn = some i) (hpi : w.pipes[i]? = some p)
    (po : p.parentOpen = true) :
    (∀ m : String, ∀ rest : List String, p.buffer = m :: rest →
      PostgresqlWatcher.should_reload w = Except.ok (true,
        { w with pipes := setAt w.pipes i (fun _ => { p with buffer := rest }),
                 trace := w.trace ++ [Effect.logDebug ("message:" ++ m)] })) ∧
    (p.buffer = [] → p.childFacadeOpen = true →
      PostgresqlWatcher.should_reload w = Except.ok (false, w) ∧
      (∀ nCalls : Nat, PostgresqlWatcher.reloadFalseTimes w nCalls = true)) := by
  constructor
  · intro m rest hb
    exact PostgresqlWatcher.should_reload_pending w i p m rest hp hpi po hb
  · intro hb pc
    have hok := PostgresqlWatcher.should_reload_no_message w i p hp hpi po hb pc
    refine ⟨hok, ?_⟩
    intro nCalls
    induction nCalls with
    | zero => rfl
    | succ k ih =>
      simp only [PostgresqlWatcher.reloadFalseTimes, hok]
      exact ih

/-- C4 witness: a freshly constructed watcher with one forwarded payload. -/
theorem C4_witness :
    worldWithOneMessage.parent_conn = some 0 ∧
    worldWithOneMessage.pipes[0]? = some pipeWithOneMessage ∧
    pipeWithOneMessage.parentOpen = true ∧
    ((∀ m : String, ∀ rest : List String, pipeWithOneMessage.buffer = m :: rest →
      PostgresqlWatcher.should_reload worldWithOneMessage = Except.ok (true,
        { worldWithOneMessage with
            pipes := setAt worldWithOneMessage.pipes 0
              (fun _ => { pipeWithOneMessage with buffer := rest }),
            trace := worldWithOneMessage.trace ++ [Effect.logDebug ("message:" ++ m)] })) ∧
    (pipeWithOneMessage.buffer = [] → pipeWithOneMessage.childFacadeOpen = true →
      PostgresqlWatcher.should_reload worldWithOneMessage = Except.ok (false, worldWithOneMessage) ∧
      (∀ nCalls : Nat, PostgresqlWatcher.reloadFalseTimes worldWithOneMessage nCalls = true))) :=
  ⟨rfl, rfl, rfl,
    C4_should_reload_poll_semantics worldWithOneMessage 0 pipeWithOneMessage rfl rfl rfl⟩

/-- C5: every `update()` call opens a fresh connection, puts it in autocommit
mode, publishes exactly one payload of the form
`casbin policy update at <timestamp>` on the configured channel, then closes
the connection; no facade attribute changes. -/
theorem C5_update_publishes_single_notify (w : World) (t : String) :
    (PostgresqlWatcher.update w t).trace.take w.trace.length = w.trace ∧
    (PostgresqlWatcher.update w t).trace.drop w.trace.length =
      [Effect.connectDb, Effect.setAutocommit,
       Effect.execSql ("NOTIFY " ++ w.channel_name ++
         ",\x27casbin policy update at " ++ t ++ "\x27"),
       Effect.closeDb] ∧
    (((PostgresqlWatcher.update w t).trace.drop w.trace.length).filter
      Effect.isExecSql).length = 1 ∧
    (PostgresqlWatcher.update w t).update_callback = w.update_callback ∧
    (PostgresqlWatcher.update w t).parent_conn = w.parent_conn ∧
    (PostgresqlWatcher.update w t).child_conn = w.child_conn ∧
    (PostgresqlWatcher.update w t).subscription_process = w.subscription_process ∧
    (PostgresqlWatcher.update w t).subscribed_process = w.subscribed_process ∧
    (PostgresqlWatcher.update w t).pipes = w.pipes ∧
    (PostgresqlWatcher.update w t).procs = w.procs := by
  have hdrop : (PostgresqlWatcher.update w t).trace.drop w.trace.length =
      [Effect.connectDb, Effect.setAutocommit,
       Effect.execSql ("NOTIFY " ++ w.channel_name ++
         ",\x27casbin policy update at " ++ t ++ "\x27"),
       Effect.closeDb] := drop_length_append _ _
  refine ⟨take_length_append _ _, hdrop, ?_, rfl, rfl, rfl, rfl, rfl, rfl, rfl⟩
  rw [hdrop]
  rfl

/-- C6: whenever the subscriber loop's connection becomes ready, the drain
loop forwards every currently buffered notification's payload through the
write endpoint, in arrival order (pop at index 0), leaving none behind. -/
theorem C6_drain_forwards_in_arrival_order (buffered : List Notify) :
    _casbin_drain_notifies buffered [] = ([], buffered.map Notify.payload) := by
  simpa using drain_general buffered []

/-- C7: `set_update_callback` stores the callable and changes no other
attribute of the facade, and no operation of the core — construction, update,
poll, teardown, recreation, or the worker-side events — ever invokes the
stored callback. -/
theorem C7_set_update_callback_frame_and_never_invoked (w : World) (cb : Nat)
    (cfg : Config) (s : Bool) (ops : List Op) :
    (PostgresqlWatcher.set_update_callback w cb).update_callback = some cb ∧
    (PostgresqlWatcher.set_update_callback w cb).host = w.host ∧
    (PostgresqlWatcher.set_update_callback w cb).port = w.port ∧
    (PostgresqlWatcher.set_update_callback w cb).user = w.user ∧
    (PostgresqlWatcher.set_update_callback w cb).password = w.password ∧
    (PostgresqlWatcher.set_update_callback w cb).dbname = w.dbname ∧
    (PostgresqlWatcher.set_update_callback w cb).channel_name = w.channel_name ∧
    (PostgresqlWatcher.set_update_callback w cb).sslmode = w.sslmode ∧
    (PostgresqlWatcher.set_update_callback w cb).sslrootcert = w.sslrootcert ∧
    (PostgresqlWatcher.set_update_callback w cb).sslcert = w.sslcert ∧
    (PostgresqlWatcher.set_update_callback w cb).sslkey = w.sslkey ∧
    (PostgresqlWatcher.set_update_callback w cb).parent_conn = w.parent_conn ∧
    (PostgresqlWatcher.set_update_callback w cb).child_conn = w.child_conn ∧
    (PostgresqlWatcher.set_update_callback w cb).subscription_process =
      w.subscription_process ∧
    (PostgresqlWatcher.set_update_callback w cb).subscribed_process =
      w.subscribed_process ∧
    (PostgresqlWatcher.set_update_callback w cb).pipes = w.pipes ∧
    (PostgresqlWatcher.set_update_callback w cb).procs = w.procs ∧
    (PostgresqlWatcher.set_update_callback w cb).trace = w.trace ∧
    (run (PostgresqlWatcher.init cfg s) ops).trace.all
      (fun e => !e.isCallbackInvoke) = true := by
  refine ⟨rfl, rfl, rfl, rfl, rfl, rfl, rfl, rfl, rfl, rfl, rfl, rfl, rfl, rfl, rfl,
    rfl, rfl, rfl, ?_⟩
  obtain ⟨-, -, h2, -, -, -⟩ :=
    PostgresqlWatcher.inv_run (PostgresqlWatcher.init cfg s) ops
      (PostgresqlWatcher.inv_init cfg s)
  exact h2

/-- C8: as long as the facade has not been torn down (its `child_conn` copy of
the write end is still owned), `should_reload` can never hit the `EOFError`
recovery branch, whatever operations and worker deaths occurred: it returns
without recreating anything and without logging any new warning. -/
theorem C8_live_facade_never_hits_eof_branch (cfg : Config) (s : Bool) (ops : List Op)
    (i : Nat) (h : (run (PostgresqlWatcher.init cfg s) ops).child_conn = some i) :
    ∃ b : Bool, ∃ w2 : World,
      PostgresqlWatcher.should_reload (run (PostgresqlWatcher.init cfg s) ops) =
        Except.ok (b, w2) ∧
      w2.procs = (run (PostgresqlWatcher.init cfg s) ops).procs ∧
      w2.parent_conn = (run (PostgresqlWatcher.init cfg s) ops).parent_conn ∧
      w2.child_conn = (run (PostgresqlWatcher.init cfg s) ops).child_conn ∧
      w2.subscribed_process = (run (PostgresqlWatcher.init cfg s) ops).subscribed_process ∧
      (∀ msg : String, Effect.logWarning msg ∈ w2.trace →
        Effect.logWarning msg ∈ (run (PostgresqlWatcher.init cfg s) ops).trace) := by
  obtain ⟨h0, h1, h2, h3, h4, h5⟩ :=
    PostgresqlWatcher.inv_run (PostgresqlWatcher.init cfg s) ops
      (PostgresqlWatcher.inv_init cfg s)
  have hp : (run (PostgresqlWatcher.init cfg s) ops).parent_conn = some i := by
    rw [h4, h]
  obtain ⟨p, hpi, po, pc⟩ := h5 i hp
  cases hb : p.buffer with
  | nil =>
    refine ⟨false, run (PostgresqlWatcher.init cfg s) ops,
      PostgresqlWatcher.should_reload_no_message _ i p hp hpi po hb pc,
      rfl, rfl, rfl, rfl, fun msg hm => hm⟩
  | cons m rest =>
    refine ⟨true, _,
      PostgresqlWatcher.should_reload_pending _ i p m rest hp hpi po hb,
      rfl, rfl, rfl, rfl, ?_⟩
    intro msg hm
    rcases List.mem_append.mp hm with hl | hr
    · exact hl
    · simp at hr

/-- C8 witness: a freshly constructed watcher, no further operations. -/
theorem C8_witness :
    (run (PostgresqlWatcher.init exampleConfig true) []).child_conn = some 0 ∧
    (∃ b : Bool, ∃ w2 : World,
      PostgresqlWatcher.should_reload (run (PostgresqlWatcher.init exampleConfig true) []) =
        Except.ok (b, w2) ∧
      w2.procs = (run (PostgresqlWatcher.init exampleConfig true) []).procs ∧
      w2.parent_conn = (run (PostgresqlWatcher.init exampleConfig true) []).parent_conn ∧
      w2.child_conn = (run (PostgresqlWatcher.init exampleConfig true) []).child_conn ∧
      w2.subscribed_process =
        (run (PostgresqlWatcher.init exampleConfig true) []).subscribed_process ∧
      (∀ msg : String, Effect.logWarning msg ∈ w2.trace →
        Effect.logWarning msg ∈ (run (PostgresqlWatcher.init exampleConfig true) []).trace)) :=
  ⟨rfl, C8_live_facade_never_hits_eof_branch exampleConfig true [] 0 rfl⟩

/-- C9: across every operation sequence, the attribute `subscription_process`
stays `None` for the facade's whole lifetime (creation assigns the worker to
the distinct attribute `subscribed_process`), so the cleanup terminate branch
never executes: no terminate effect is ever emitted and no ledger worker is
ever terminated. -/
theorem C9_subscription_process_stays_none (cfg : Config) (s : Bool) (ops : List Op) :
    (run (PostgresqlWatcher.init cfg s) ops).subscription_process = none ∧
    (run (PostgresqlWatcher.init cfg s) ops).trace.all (fun e => !e.isTerminate) = true ∧
    (run (PostgresqlWatcher.init cfg s) ops).procs.all (fun pr => !pr.terminated) = true := by
  obtain ⟨h0, h1, h2, h3, h4, h5⟩ :=
    PostgresqlWatcher.inv_run (PostgresqlWatcher.init cfg s) ops
      (PostgresqlWatcher.inv_init cfg s)
  refine ⟨h0, h1, ?_⟩
  rw [List.all_eq_true] at h3 ⊢
  intro pr hpr
  have hh := h3 pr hpr
  simp only [Bool.and_eq_true] at hh
  exact hh.2

/-- C10: every subscriber worker process the facade ever creates carries the
daemon flag, so no worker can outlive the calling process. -/
theorem C10_workers_created_as_daemons (cfg : Config) (s : Bool) (ops : List Op) :
    (run (PostgresqlWatcher.init cfg s) ops).procs.all (fun pr => pr.daemon) = true := by
  obtain ⟨h0, h1, h2, h3, h4, h5⟩ :=
    PostgresqlWatcher.inv_run (PostgresqlWatcher.init cfg s) ops
      (PostgresqlWatcher.inv_init cfg s)
  rw [List.all_eq_true] at h3 ⊢
  intro pr hpr
  have hh := h3 pr hpr
  simp only [Bool.and_eq_true] at hh
  exact hh.1
